import Mathlib

/-!
A shallow embedding of the core of the `chilly` tile renderer
(scene parser, variant registry, autotile resolver, sprite assigner,
frame counter and GIF palette construction), translated from
`src/classes.py`, `src/cogs/parser.py`, `src/cogs/variants.py` and
`src/cogs/render.py`, together with theorems settling the frozen claims.

Modelling conventions:
* Python exceptions are modelled by `Except PyErr`; a `dict` lookup that
  can raise `KeyError` returns `Option`.
* Python `float` coordinates are modelled as rationals: the parser only
  ever feeds integral values, and no claim exercises the one operation
  (the `displace` variant division) where binary floating point could
  diverge from exact rational arithmetic.
* `src/constants.py` is not part of the sources; the values it provides
  (`TILING_VARIANTS`, `COLOR_NAMES`, `TILE_SPACING`) are passed as
  parameters or modelled from the spec where needed.
-/

namespace Chilly

attribute [local semireducible] Rat.add Rat.sub

/-- A Python `bool` used as an integer (`True << 7` and friends). -/
def bnat (b : Bool) : Nat := if b then 1 else 0

/-- The Python exception values the embedded core can raise, tagged by
their Python class. -/
inductive PyErr where
  | customError (msg : String)
  | argumentError (ty : String) (arg : String) (ctx : String)
  | notImplementedError (msg : String)
  | keyError
  | valueError
  | indexError
  | typeError
  | zeroDivisionError
deriving DecidableEq, Repr

/-- The Python class name of an exception value: the "category" an error
belongs to for the purposes of `src/cogs/errors.py`, which dispatches on
`isinstance` checks against these classes. -/
def PyErr.className : PyErr → String
  | .customError _ => "CustomError"
  | .argumentError _ _ _ => "ArgumentError"
  | .notImplementedError _ => "NotImplementedError"
  | .keyError => "KeyError"
  | .valueError => "ValueError"
  | .indexError => "IndexError"
  | .typeError => "TypeError"
  | .zeroDivisionError => "ZeroDivisionError"

/-- Decimal digit value of a character, if it is one. -/
def digitVal (c : Char) : Option Nat :=
  if c.isDigit then some (c.toNat - 48) else none

/-- Accumulating fold over decimal digits; `none` on a non-digit. -/
def digitsValGo (acc : Nat) : List Char → Option Nat
  | [] => some acc
  | c :: cs =>
    match digitVal c with
    | some d => digitsValGo (acc * 10 + d) cs
    | none => none

/-- Value of a non-empty all-decimal-digit character list. -/
def digitsVal : List Char → Option Nat
  | [] => none
  | cs => digitsValGo 0 cs

/-- Models Python `int(s)` on plain decimal strings (an optional leading
minus followed by digits).  Python also tolerates surrounding whitespace,
a leading plus and underscore separators; no claim exercises those. -/
def pyIntChars (cs : List Char) : Option Int :=
  if cs.headD ' ' = '-' then (digitsVal cs.tail).map (fun n => -(n : Int))
  else (digitsVal cs).map (fun n => (n : Int))

/-- Hexadecimal digit value of a character, if it is one. -/
def hexDigitVal (c : Char) : Option Nat :=
  if c.isDigit then some (c.toNat - 48)
  else if 'a' ≤ c ∧ c ≤ 'f' then some (c.toNat - 87)
  else if 'A' ≤ c ∧ c ≤ 'F' then some (c.toNat - 55)
  else none

/-- Accumulating fold over hexadecimal digits; `none` on a non-digit. -/
def hexValGo (acc : Nat) : List Char → Option Nat
  | [] => some acc
  | c :: cs =>
    match hexDigitVal c with
    | some d => hexValGo (acc * 16 + d) cs
    | none => none

/-- Models Python `int(s, base=16)` on plain hexadecimal strings. -/
def hexVal : List Char → Option Nat
  | [] => none
  | cs => hexValGo 0 cs

/-- Split a character list at the first occurrence of `sep`
(Python `str.split(sep, 1)`); `none` in the second component means the
separator did not occur. -/
def splitFirst (sep : Char) : List Char → List Char × Option (List Char)
  | [] => ([], none)
  | c :: cs =>
    if c = sep then ([], some cs)
    else
      let r := splitFirst sep cs
      (c :: r.1, r.2)

/-- `Color` (src/classes.py): `b = none` is a palette index pair, `b = some _`
an RGB triple. -/
structure Color where
  r : Int
  g : Int
  b : Option Int
deriving DecidableEq, Repr

/-- `Color.__init__` (src/classes.py lines 43-68), as a partial function:
`none` models the raised `CustomError`.  `colorNames` stands for the
`COLOR_NAMES` table imported from `src/constants.py`, which is not among
the sources; it maps color names to palette index pairs. -/
def color_init (colorNames : List (String × (Int × Int))) (index : String) :
    Option Color :=
  let cs := index.data
  if cs.contains ',' then
    match splitFirst ',' cs with
    | (xs, some ys) =>
      match pyIntChars xs, pyIntChars ys with
      | some r, some g => some ⟨r, g, none⟩
      | _, _ => none
    | (_, none) => none
  else
    match colorNames.find? (fun p => p.1 = index) with
    | some p => some ⟨p.2.1, p.2.2, none⟩
    | none =>
      match cs with
      | '#' :: hexColor =>
        if hexColor.length ≠ 6 then none
        else
          match hexVal hexColor with
          | some rgb =>
            some ⟨((rgb &&& 0xFF0000) >>> 16 : Nat),
                  ((rgb &&& 0xFF00) >>> 8 : Nat),
                  some ((rgb &&& 0xFF : Nat) : Int)⟩
          | none => none
      | _ => none

/-- `Color.__iter__` (src/classes.py lines 70-73). -/
def colorIter (c : Color) : List Int :=
  match c.b with
  | none => [c.r, c.g]
  | some b => [c.r, c.g, b]

/-- `Position` (src/classes.py).  Coordinates are Python floats (the parser
feeds integral values); modelled as rationals, see the file header. -/
structure Position where
  x : Rat
  y : Rat
  z : Rat
  t : Rat
deriving DecidableEq, Repr

/-- `Tiling` (src/classes.py). -/
inductive Tiling where
  | none
  | directional
  | autotiled
  | character
  | animdir
  | animated
deriving DecidableEq, Repr

/-- `TileData` (src/classes.py). -/
structure TileData where
  color : Color
  sprite : String
  world : String
  tiling : Tiling
  author : String
  tile_index : Option (Int × Int)
  object_id : Option String
  layer : Option Int
deriving DecidableEq, Repr

/-- The declared type of one variant argument.  The Python code stores the
type objects `int`, `str`, `Color` and the `...` sentinel directly in
`VariantData.arguments`; this is the corresponding closed enumeration. -/
inductive VarTy where
  | int
  | str
  | color
  | ellipsis
deriving DecidableEq, Repr

/-- A resolved variant argument value. -/
inductive Val where
  | vInt (n : Int)
  | vStr (s : String)
  | vColor (c : Color)
deriving DecidableEq, Repr

/-- `VariantData` (src/classes.py): a variant signature.  A default slot of
`none` is Python `None` (the "missing" placeholder). -/
structure VariantData where
  names : List String
  description : String
  usage_example : String
  arguments : List VarTy
  defaults : List (Option Val)
deriving DecidableEq, Repr

/-- A `Variant` after resolution: canonical name plus typed argument list
(`none` entries are Python `None`). -/
structure Variant where
  name : String
  arguments : List (Option Val)
deriving DecidableEq, Repr

/-- `CompositingMode` (src/classes.py). -/
inductive CompositingMode where
  | normal
deriving DecidableEq, Repr

/-- `TileAttributes` (src/classes.py).  `frame` is a pair whose first
component may itself be Python `None` (the `tiling` variant stores a
`dict.get` result there). -/
structure TileAttributes where
  frame : Option (Option Int × Int)
  sprite_name : String
  color : Option Color
  palette : Option String
  compositing_mode : CompositingMode
  displacement : Int × Int
deriving DecidableEq, Repr

/-- The attribute values a fresh `TileAttributes()` carries. -/
def TileAttributes.default : TileAttributes :=
  ⟨none, "error", none, none, .normal, (0, 0)⟩

/-- `Tile` (src/classes.py).  `sprite` keeps only the unresolved
`(world, sprite-stem)` pair; loaded images are outside the embedding. -/
structure Tile where
  name : String
  variants : List Variant
  data : Option TileData
  attrs : TileAttributes
  sprite : Option (String × String)
deriving DecidableEq, Repr

/-- `TileGrid` (src/classes.py): the sparse tile dictionary kept as an
association list in insertion order, plus the running maxima. -/
structure TileGrid where
  tiles : List (Position × Tile)
  width : Int
  height : Int
  length : Int
  spacing : Int
deriving DecidableEq, Repr

/-- `TileGrid.__getitem__` as a partial lookup: `none` models the
`KeyError` a missing key raises. -/
def TileGrid.find (g : TileGrid) (p : Position) : Option Tile :=
  (g.tiles.find? (fun e => e.1 = p)).map (fun e => e.2)

/-- `ImageFormat` (src/classes.py). -/
inductive ImageFormat where
  | gif
deriving DecidableEq, Repr

/-- A parsed scene flag value: `none` is the boolean `True` a bare
`--key` produces, `some s` a `--key=s` string. -/
abbrev FlagVal := Option String

/-- `Scene` (src/classes.py), with the class defaults. -/
structure Scene where
  tiles : TileGrid
  flags : List (String × FlagVal)
  tile_spacing : Int := 24
  connect_borders : Bool := false
  format : ImageFormat := .gif
  image_size : Int := 2
deriving DecidableEq, Repr

/-- `ParserCog.is_adjacent` (src/cogs/parser.py lines 148-159).  Note the
source compares `pos.y` against `grid.width` (not `grid.height`); the
embedding reproduces that.  An in-bounds position missing from the grid
raises `KeyError` through `TileGrid.__getitem__`. -/
def is_adjacent (pos : Position) (tile : Tile) (grid : TileGrid)
    (tile_borders : Bool) : Except PyErr Bool :=
  let joining_tiles := [tile.name, "level", "border"]
  if pos.x < 0 ∨ pos.y < 0 ∨ pos.x ≥ (grid.width : Rat) ∨
      pos.y ≥ (grid.width : Rat) then
    .ok tile_borders
  else
    match grid.find pos with
    | none => .error .keyError
    | some occupant => .ok (joining_tiles.contains occupant.name)

/-- The neighbor bitfield assembled from the eight join flags (the
shifts and ors of src/cogs/parser.py lines 189-198; the diagonal flags
handed in are already gated by their cardinals). -/
def neighbor_bitfield (r u l d ur ul dl dr : Bool) : Nat :=
  bnat r <<< 7 ||| bnat u <<< 6 ||| bnat l <<< 5 ||| bnat d <<< 4 |||
  bnat ur <<< 3 ||| bnat ul <<< 2 ||| bnat dl <<< 1 ||| bnat dr

/-- The 8-neighbor probe of `ParserCog.connect_autotiled`
(src/cogs/parser.py lines 170-198), up to and including the bitfield.
The diagonal probes reproduce Python's short-circuiting
`u and r and is_adjacent(...)`: the diagonal cell is only looked at when
both adjacent cardinal probes succeeded and returned `True`. -/
def autotile_bitfield (grid : TileGrid) (pos : Position) (tile : Tile)
    (tile_borders : Bool) : Except PyErr Nat := do
  let r ← is_adjacent { pos with x := pos.x + 1 } tile grid tile_borders
  let u ← is_adjacent { pos with y := pos.y - 1 } tile grid tile_borders
  let l ← is_adjacent { pos with x := pos.x - 1 } tile grid tile_borders
  let d ← is_adjacent { pos with y := pos.y + 1 } tile grid tile_borders
  let ur ← if u && r then
      is_adjacent { pos with x := pos.x + 1, y := pos.y - 1 } tile grid tile_borders
    else pure false
  let ul ← if u && l then
      is_adjacent { pos with x := pos.x - 1, y := pos.y - 1 } tile grid tile_borders
    else pure false
  let dl ← if d && l then
      is_adjacent { pos with x := pos.x - 1, y := pos.y + 1 } tile grid tile_borders
    else pure false
  let dr ← if d && r then
      is_adjacent { pos with x := pos.x + 1, y := pos.y + 1 } tile grid tile_borders
    else pure false
  pure (neighbor_bitfield r u l d ur ul dl dr)

/-- One tile's pass through `ParserCog.connect_autotiled`
(src/cogs/parser.py lines 161-204), returning the tile's new
`attrs.frame`.  `tv` stands for the `TILING_VARIANTS` table imported from
`src/constants.py` (not among the sources); `tv.get` models `dict.get`,
so a missing cardinal-only key raises `KeyError`. -/
def connect_tile_frame (tv : Nat → Option Int) (scene : Scene)
    (pos : Position) (tile : Tile) : Except PyErr (Option (Option Int × Int)) :=
  if tile.attrs.frame ≠ none ∨ tile.data = none then
    .ok tile.attrs.frame
  else if (tile.data.map TileData.tiling).getD .none ≠ Tiling.autotiled then
    .ok (some (some 0, 0))
  else do
    let bitfield ← autotile_bitfield scene.tiles pos tile scene.connect_borders
    match tv (bitfield &&& 0b11110000) with
    | none => .error .keyError
    | some fallback =>
      .ok (some (some ((tv bitfield).getD fallback), fallback))

/-- A Python `for` loop collecting per-element `Except` results
(the shape shared by `connect_autotiled`, `assign_sprites` and the
wobble-frame loop): stops at the first raised exception. -/
def exceptMapList (f : α → Except PyErr β) : List α → Except PyErr (List β)
  | [] => .ok []
  | x :: xs => do
    let y ← f x
    let ys ← exceptMapList f xs
    .ok (y :: ys)

/-- `ParserCog.connect_autotiled` over the whole grid.  The source mutates
`tile.attrs.frame` in place while iterating, but `is_adjacent` reads only
neighbor names, never frames, so iterating over the original entries is
faithful. -/
def connect_autotiled (tv : Nat → Option Int) (scene : Scene) :
    Except PyErr (List (Position × Tile)) :=
  exceptMapList
    (fun pt => do
      let f ← connect_tile_frame tv scene pt.1 pt.2
      .ok (pt.1, { pt.2 with attrs := { pt.2.attrs with frame := f } }))
    scene.tiles.tiles

/-- The Python name of a declared argument type (`ty.__name__`). -/
def tyName : VarTy → String
  | .int => "int"
  | .str => "str"
  | .color => "Color"
  | .ellipsis => "ellipsis"

/-- `VariantRegistry.parse_type`: the declared type applied to the raw
string, `ty(string)`.  `int` failures raise `ValueError`; a `Color`
failure raises `CustomError` (src/classes.py line 45), which the
registry's `except ValueError` does not catch. -/
def parse_type (colorNames : List (String × (Int × Int))) :
    VarTy → String → Except PyErr Val
  | .int, s =>
    match pyIntChars s.data with
    | some n => .ok (.vInt n)
    | none => .error .valueError
  | .str, s => .ok (.vStr s)
  | .color, s =>
    match color_init colorNames s with
    | some c => .ok (.vColor c)
    | none => .error (.customError ("Failed to parse `" ++ s ++ "` as a color."))
  | .ellipsis, _ => .error .typeError

/-- `repr(self)` on the registry object (the third `ArgumentError` field in
src/cogs/variants.py line 52 is the *registry's* repr); the memory address
Python would print is elided. -/
def registry_repr : String := "<src.cogs.variants.VariantRegistry object>"

/-- The inner `for vararg in variant.arguments[i:]` loop of the variadic
(`...`) branch of `VariantRegistry.parse`: parse every remaining supplied
argument with the previous declared type, appending each value.
`lastTy = none` models calling Python `None` as a type (a `TypeError`). -/
def vararg_loop (colorNames : List (String × (Int × Int)))
    (lastTy : Option VarTy) :
    List String → List (Option Val) → Except PyErr (List (Option Val))
  | [], args => .ok args
  | v :: vs, args =>
    match lastTy with
    | none => .error .typeError
    | some ty =>
      match parse_type colorNames ty v with
      | .error .valueError => .error (.argumentError (tyName ty) v registry_repr)
      | .error e => .error e
      | .ok pv => vararg_loop colorNames lastTy vs (args ++ [some pv])

/-- The main `for i, (ty, arg) in enumerate(zip(...))` loop of
`VariantRegistry.parse` (src/cogs/variants.py lines 34-53): walks declared
types and supplied raw strings in lockstep (`zip` stops at the shorter),
stores each parsed value over its default, and on the `...` sentinel drops
the last default slot and hands the rest to `vararg_loop`. -/
def resolve_args (colorNames : List (String × (Int × Int))) :
    List VarTy → List String → Nat → Option VarTy → List (Option Val) →
    Except PyErr (List (Option Val))
  | [], _, _, _, args => .ok args
  | _ :: _, [], _, _, args => .ok args
  | ty :: tys, arg :: rest, i, lastTy, args =>
    if ty = .ellipsis then
      vararg_loop colorNames lastTy (arg :: rest) args.dropLast
    else
      match parse_type colorNames ty arg with
      | .error .valueError => .error (.argumentError (tyName ty) arg registry_repr)
      | .error e => .error e
      | .ok pv => resolve_args colorNames tys rest (i + 1) (some ty) (args.set i (some pv))

/-- `Variant.__repr__` on a variant whose arguments are still the raw
supplied strings (this is `var = repr(variant)` in
src/cogs/variants.py line 33, taken after the name is canonicalized). -/
def raw_variant_repr (name : String) (args : List String) : String :=
  ":" ++ name ++ (if args.length ≠ 0 then "/" ++ String.intercalate "/" args else "")

/-- `VariantRegistry.parse` (src/cogs/variants.py lines 20-61) as a pure
function from the raw (name, string-arguments) pair to the resolved
variant.  The registry is a Python `set`, whose iteration order is
unspecified, but the alias sets of distinct entries are disjoint, so
modelling it as a list and taking the first match is faithful. -/
def registry_parse (registry : List VariantData)
    (colorNames : List (String × (Int × Int)))
    (name : String) (supplied : List String) : Except PyErr Variant :=
  match registry.find? (fun d => d.names.contains name) with
  | none => .error (.customError ("Couldn't find a variant called `" ++ name ++ "`."))
  | some data =>
    let canonical := data.names.headD name
    let var := raw_variant_repr canonical supplied
    match resolve_args colorNames data.arguments supplied 0 none data.defaults with
    | .error e => .error e
    | .ok args =>
      match args.findIdx? (fun a => a = none) with
      | some i =>
        .error (.customError
          ("Only `" ++ toString i ++ "` arguments were provided to the variant `"
            ++ var ++ "`, but it requires at least `"
            ++ toString supplied.length ++ "`."))
      | none => .ok ⟨canonical, args⟩

/-- The variant signatures registered in `setup`
(src/cogs/variants.py lines 64-124), in source order. -/
def chilly_registry : List VariantData := [
  ⟨["meta", "m"],
    "Adds an outline to the tile's sprite.\nYou can optionally specify how many times to outline, a kernel, and an outline size.",
    "baba:meta", [.int, .str, .int], [some (.vInt 1), some (.vStr "full"), some (.vInt 1)]⟩,
  ⟨["left", "l"], "Makes the tile face left.", "arrow:l", [], []⟩,
  ⟨["up", "u"], "Makes the tile face up.", "arrow:u", [], []⟩,
  ⟨["right", "r"], "Makes the tile face right.", "arrow:r", [], []⟩,
  ⟨["down", "d"], "Makes the tile face down.", "arrow:d", [], []⟩,
  ⟨["sleep", "s"], "Makes the tile fall asleep.", "baba:s", [], []⟩,
  ⟨["displace", "disp"], "Displaces the tile's position by a pixel amount.",
    "cog:disp/4/4", [.int, .int], [none, none]⟩,
  ⟨["color", "c"], "Changes the color of a tile. May be a palette index or a hex RGB.",
    "pixel:c/#7289DA pixel:c/4,1", [.color], [none]⟩,
  ⟨["tiling", "t"], "Manually sets the state of an autotiling tile.",
    "wall:t/u/l/ul", [.str, .ellipsis], [none, none]⟩]

/-- Membership of a resolved argument in a tuple of direction tokens
(`arg in ("r", "dr", "ur")` in the `tiling` branch of
`build_attributes`): the resolved values compared are strings. -/
def tiling_arg_in (arg : Option Val) (names : List String) : Bool :=
  names.any (fun s => arg == some (.vStr s))

/-- The bitfield accumulation of the manual `tiling` variant
(src/cogs/parser.py lines 120-134). -/
def tiling_bitfield (args : List (Option Val)) : Nat :=
  args.foldl
    (fun bitfield arg =>
      bitfield |||
        (bnat (tiling_arg_in arg ["r", "dr", "ur"]) <<< 7 |||
         bnat (tiling_arg_in arg ["u", "ul", "ur"]) <<< 6 |||
         bnat (tiling_arg_in arg ["l", "ul", "dl"]) <<< 5 |||
         bnat (tiling_arg_in arg ["d", "dl", "dr"]) <<< 4 |||
         bnat (arg == some (.vStr "ur")) <<< 3 |||
         bnat (arg == some (.vStr "ul")) <<< 2 |||
         bnat (arg == some (.vStr "dl")) <<< 1 |||
         bnat (arg == some (.vStr "dr")))) 0

/-- The variant loop of `ParserCog.build_attributes`
(src/cogs/parser.py lines 100-143), folding over the tile's parsed
variants: `kept` collects the variants passed through to later passes,
and the `x`/`y` accumulators absorb `displace`.  Crash cases of the
Python code (e.g. `sleep` without a direction frame subtracting from
`None`, division by a zero spacing) are modelled by the corresponding
exception constructors. -/
def build_attributes_go (tv : Nat → Option Int) (grid : TileGrid) :
    List Variant → List Variant → TileAttributes → Rat → Rat →
    Except PyErr (List Variant × TileAttributes × Rat × Rat)
  | [], kept, attrs, x, y => .ok (kept, attrs, x, y)
  | variant :: vs, kept, attrs, x, y =>
    if variant.name = "right" then
      build_attributes_go tv grid vs kept { attrs with frame := some (some 0, 0) } x y
    else if variant.name = "up" then
      build_attributes_go tv grid vs kept { attrs with frame := some (some 8, 8) } x y
    else if variant.name = "left" then
      build_attributes_go tv grid vs kept { attrs with frame := some (some 16, 16) } x y
    else if variant.name = "down" then
      build_attributes_go tv grid vs kept { attrs with frame := some (some 24, 24) } x y
    else if variant.name = "sleep" then
      match attrs.frame with
      | some (some f0, _) =>
        build_attributes_go tv grid vs kept
          { attrs with frame := some (some ((f0 - 1) % 32), (f0 - 1) % 32) } x y
      | some (none, _) => .error .typeError
      | none => .error .typeError
    else if variant.name = "displace" then
      match variant.arguments with
      | [some (.vInt dx), some (.vInt dy)] =>
        if grid.spacing = 0 then .error .zeroDivisionError
        else
          build_attributes_go tv grid vs kept attrs
            (x + (dx : Rat) / (grid.spacing : Rat))
            (y + (dy : Rat) / (grid.spacing : Rat))
      | _ => .error .typeError
    else if variant.name = "tiling" then
      match tv (tiling_bitfield variant.arguments &&& 0b11110000) with
      | none => .error .keyError
      | some fallback =>
        build_attributes_go tv grid vs kept
          { attrs with frame := some (tv (tiling_bitfield variant.arguments), fallback) } x y
    else if variant.name = "color" then
      build_attributes_go tv grid vs (kept ++ [variant])
        { attrs with color := some ⟨255, 255, some 255⟩ } x y
    else
      build_attributes_go tv grid vs (kept ++ [variant]) attrs x y

/-- `ParserCog.build_attributes` (src/cogs/parser.py lines 94-146). -/
def build_attributes (tv : Nat → Option Int) (grid : TileGrid) (tile : Tile)
    (pos : Position) : Except PyErr (Tile × Position) :=
  match build_attributes_go tv grid tile.variants [] tile.attrs pos.x pos.y with
  | .error e => .error e
  | .ok (kept, attrs, x, y) =>
    .ok ({ tile with attrs := attrs, variants := kept }, ⟨x, y, pos.z, pos.t⟩)

/-- Python `str.split(sep)` for a one-character separator (the `:` and
`/` splits of `parse_tile`), as a structural recursion; the result is
always non-empty, and splitting the empty string yields `[""]`. -/
def splitOnChar (sep : Char) : List Char → List (List Char)
  | [] => [[]]
  | c :: cs =>
    if c = sep then [] :: splitOnChar sep cs
    else
      match splitOnChar sep cs with
      | [] => [[c]]
      | r :: rs => (c :: r) :: rs

/-- `ParserCog.parse_tile` (src/cogs/parser.py lines 72-92).  Note the
`TileData` lookup happens here with the token's own (possibly empty)
name; `parse` only later overwrites the name of an empty-named tile,
without redoing the lookup. -/
def parse_tile (tv : Nat → Option Int) (registry : List VariantData)
    (colorNames : List (String × (Int × Int))) (db : List (String × TileData))
    (grid : TileGrid) (raw_tile : String) (x y z t : Nat) :
    Except PyErr (Tile × Position) := do
  let parts := (splitOnChar ':' raw_tile.data).map (fun cs => String.mk cs)
  let tile_name := parts.headD ""
  let variants ← exceptMapList
    (fun rv =>
      let vparts := (splitOnChar '/' rv.data).map (fun cs => String.mk cs)
      registry_parse registry colorNames (vparts.headD "") vparts.tail)
    parts.tail
  let tile : Tile :=
    ⟨tile_name, variants, (db.find? (fun e => e.1 = tile_name)).map (fun e => e.2),
      TileAttributes.default, none⟩
  build_attributes tv grid tile ⟨(x : Rat), (y : Rat), (z : Rat), (t : Rat)⟩

/-- The escape-aware separator split (the `SPACE_PATTERN` /
`STACK_PATTERN` / `STEP_PATTERN` regexes, src/cogs/parser.py lines
24-26): a separator character is a split point unless it is preceded by a
backslash that is not itself preceded by a backslash (the lookbehind
inspects exactly the two previous characters). -/
def split_unescaped_go (sep : Char) :
    List Char → Option Char → Option Char → List Char → List (List Char)
  | [], _, _, acc => [acc.reverse]
  | c :: cs, p1, p2, acc =>
    if c = sep ∧ ¬(p1 = some '\\' ∧ p2 ≠ some '\\') then
      acc.reverse :: split_unescaped_go sep cs (some c) p1 []
    else
      split_unescaped_go sep cs (some c) p1 (c :: acc)

/-- Split a string on unescaped occurrences of `sep`. -/
def split_unescaped (sep : Char) (s : String) : List String :=
  (split_unescaped_go sep s.data none none []).map (fun cs => String.mk cs)

/-- The step (`>`) loop of `ParserCog.parse` (src/cogs/parser.py lines
51-69) at one cell, threading the `last_tile` reference; returns the
`(position, tile)` grid insertions in loop order.  The running
width/height/length maxima updates are not modelled here. -/
def step_go (tv : Nat → Option Int) (registry : List VariantData)
    (colorNames : List (String × (Int × Int))) (db : List (String × TileData))
    (grid : TileGrid) (x y z : Nat) :
    List String → Nat → Option Tile → Except PyErr (List (Position × Tile))
  | [], _, _ => .ok []
  | raw :: rest, t, last => do
    let tp ← parse_tile tv registry colorNames db grid raw x y z t
    if tp.1.name = "." then
      step_go tv registry colorNames db grid x y z rest (t + 1) none
    else if tp.1.name = "" then
      match last with
      | none => step_go tv registry colorNames db grid x y z rest (t + 1) none
      | some lt =>
        (fun l => (tp.2, ⟨lt.name, tp.1.variants, tp.1.data, tp.1.attrs, tp.1.sprite⟩) :: l) <$>
          step_go tv registry colorNames db grid x y z rest (t + 1)
            (some ⟨lt.name, tp.1.variants, tp.1.data, tp.1.attrs, tp.1.sprite⟩)
    else
      (fun l => (tp.2, tp.1) :: l) <$>
        step_go tv registry colorNames db grid x y z rest (t + 1) (some tp.1)

/-- One cell of `ParserCog.parse`: split on unescaped `>` and run the
step loop with a fresh `last_tile`. -/
def parse_cell (tv : Nat → Option Int) (registry : List VariantData)
    (colorNames : List (String × (Int × Int))) (db : List (String × TileData))
    (grid : TileGrid) (x y z : Nat) (cell : String) :
    Except PyErr (List (Position × Tile)) :=
  step_go tv registry colorNames db grid x y z (split_unescaped '>' cell) 0 none

/-- The sprite file path
`Path("data", world, "sprites", stem).with_suffix(".png")` rendered as a
string. -/
def sprite_path (world stem : String) : String :=
  "data/" ++ world ++ "/sprites/" ++ stem ++ ".png"

/-- Python `str` of an `int`-or-`None` value (the first frame slot can be
`None`, which an f-string prints as `None`). -/
def pyShowOptInt : Option Int → String
  | none => "None"
  | some n => toString n

/-- The four fallback filename stems tried per wobble frame
(src/cogs/render.py lines 85-90), in source order. -/
def sprite_fallbacks (stem : String) (f0 : Option Int) (f1 : Int)
    (wobble : Nat) : List String :=
  [stem ++ "_" ++ pyShowOptInt f0 ++ "_" ++ toString wobble,
   stem ++ "_" ++ toString f1 ++ "_" ++ toString wobble,
   stem ++ "_" ++ pyShowOptInt f0 ++ "_1",
   stem ++ "_" ++ toString f1 ++ "_1"]

/-- The `for stem in fallbacks: ... if path.exists(): break` search: the
first of the four candidate paths that exists on the asset store `fs`. -/
def find_sprite_path (fs : String → Bool) (world stem : String)
    (f0 : Option Int) (f1 : Int) (wobble : Nat) : Option String :=
  ((sprite_fallbacks stem f0 f1 wobble).map (sprite_path world)).find? fs

/-- One wobble frame of the sprite-loading loop
(src/cogs/render.py lines 82-103): the resolved path, or the
"no sprite found" `CustomError` naming the tile and its primary frame. -/
def load_wobble (fs : String → Bool) (tile_name world stem : String)
    (f0 : Option Int) (f1 : Int) (wobble : Nat) : Except PyErr String :=
  match find_sprite_path fs world stem f0 f1 wobble with
  | some path => .ok path
  | none =>
    .error (.customError ("Failed to find any sprites for `" ++ tile_name ++
      "` at animation frame `" ++ pyShowOptInt f0 ++ "`."))

/-- The sprite-resolution slice of `RendererCog.assign_sprites`
(src/cogs/render.py lines 57-106) for one tile: default the frame pair to
`(0, 0)`, resolve the `(world, sprite)` identity (the `"2"` easter egg
included, its random choice supplied as `pick`, `none` modelling the
`IndexError` `random.choice` raises on an empty list), and run the
fallback chain for the three wobble frames.  A tile with no identity
reaches `generate_sprite`, which always reports failure, so the
"no tile with that name" `CustomError` is raised.  The subsequent
recoloring acts on loaded image data and is outside the embedding. -/
def assign_tile_sprite (fs : String → Bool)
    (pick : List (String × String) → Option (String × String))
    (db : List (String × TileData)) (tile : Tile) :
    Except PyErr (List String) := do
  let frame := tile.attrs.frame.getD (some 0, 0)
  let spritePair ←
    if tile.name = "2" then
      match pick ((db.filter (fun e => e.2.tiling == Tiling.character)).map
          (fun e => (e.2.world, e.2.sprite))) with
      | some p => Except.ok (some p)
      | none => Except.error PyErr.indexError
    else
      match tile.data with
      | some d => Except.ok (some (d.world, d.sprite))
      | none => Except.ok (none : Option (String × String))
  match spritePair with
  | some ws =>
    exceptMapList (fun w => load_wobble fs tile.name ws.1 ws.2 frame.1 frame.2 w)
      [1, 2, 3]
  | none =>
    .error (.customError ("There's no tile with the name `" ++ tile.name ++ "`."))

/-- Whether any tile of the grid sits at timestep `f`
(`tiles_by_time.get(current_frame) is None` in `RendererCog.render`). -/
def has_tiles_at (g : TileGrid) (f : Nat) : Bool :=
  g.tiles.any (fun pt => pt.1.t == (f : Rat))

/-- The canvases `RendererCog.render` (src/cogs/render.py lines 144-189)
appends: three wobble canvases per timestep in `range(scene.tiles.length)`
holding at least one tile, none for an empty timestep.  What is painted
onto a canvas is irrelevant to the claims, so a canvas is a unit value. -/
def render_frames (scene : Scene) : List Unit :=
  (List.range scene.tiles.length.toNat).flatMap
    (fun f => if has_tiles_at scene.tiles f then [(), (), ()] else [])

/-- The message of the zero-frames guard
(src/cogs/render.py lines 184-188). -/
def render_no_frames_msg : String :=
  "No frames were generated in the render! Something probably went wrong internally, contact the bot developer."

/-- `RendererCog.render`: collect the canvases and fail with the
zero-frames `CustomError` when none were produced. -/
def render (scene : Scene) : Except PyErr (List Unit) :=
  let frames := render_frames scene
  if frames.length = 0 then .error (.customError render_no_frames_msg)
  else .ok frames

/-- The flat byte stream of an H×W×3 `uint8` array in row-major order. -/
def flat_bytes (pixels : List (Nat × Nat × Nat)) : List Nat :=
  pixels.flatMap (fun p => [p.1, p.2.1, p.2.2])

/-- `np.reshape(-1, 4)` on a flat buffer: regroup into rows of four;
`none` models the `ValueError` raised unless the length is divisible by
four. -/
def chunk4 : List Nat → Option (List (List Nat))
  | [] => some []
  | a :: b :: c :: d :: rest => (chunk4 rest).map (fun rs => [a, b, c, d] :: rs)
  | _ => none

/-- Insert into a sorted list after every element that compares below or
equal (the recursion of `sortBy`). -/
def insertSorted (le : α → α → Bool) (x : α) : List α → List α
  | [] => [x]
  | y :: ys => if le y x then y :: insertSorted le x ys else x :: y :: ys

/-- Stable insertion sort, used to model NumPy sorted output (NumPy's
actual sorting algorithms differ, but only the sorted result is
observable here). -/
def sortBy (le : α → α → Bool) (l : List α) : List α :=
  l.foldl (fun acc x => insertSorted le x acc) []

/-- Strict lexicographic order on byte rows (`np.unique(..., axis=0)`
returns its rows sorted lexicographically). -/
def row_lt : List Nat → List Nat → Bool
  | [], [] => false
  | [], _ :: _ => true
  | _ :: _, [] => false
  | a :: as, b :: bs => if a < b then true else if b < a then false else row_lt as bs

/-- `np.unique(rows, axis=0, return_counts=True)`: the distinct rows in
lexicographic order, each paired with its occurrence count. -/
def unique_rows (rows : List (List Nat)) : List (List Nat × Nat) :=
  (sortBy (fun a b => !row_lt b a)
      (rows.foldl (fun acc r => if r ∈ acc then acc else acc ++ [r]) [])).map
    (fun r => (r, rows.count r))

/-- `RendererCog.sort_colors` (src/cogs/render.py lines 304-308): reshape
the array's flat byte buffer into rows of FOUR (the function reads RGBA
rows, though `encode_frames` hands it a 3-channel array), take the
distinct rows with counts, and return the rows sorted by ascending count.
`np.argsort` uses an unstable sort; ties are modelled by a stable sort,
and no theorem below depends on the tie order. -/
def sort_colors (array_bytes : List Nat) : Option (List (List Nat)) :=
  (chunk4 array_bytes).map
    (fun rows =>
      (sortBy (fun a b => a.2 ≤ b.2) (unique_rows rows)).map (fun e => e.1))

/-- The palette list `RendererCog.encode_frames` builds for one frame
(src/cogs/render.py lines 232-237): `[0, 0, 0]` for the transparent
color, then the first 255 entries `sort_colors` returned, flattened;
`PIL.Image.putpalette` receives exactly this list. -/
def gif_palette (pixels : List (Nat × Nat × Nat)) : Option (List Nat) :=
  (sort_colors (flat_bytes pixels)).map
    (fun sorted => [0, 0, 0] ++ (sorted.take 255).flatten)

/-- Modelled from the spec: the palette §4.7 of the spec describes —
index 0 transparent black, followed by at most 255 of the frame's
distinct remaining *colors* (RGB triples) sorted ascending by pixel
count.  Stated for comparison with `gif_palette`, the palette the code
actually builds. -/
def spec_palette (pixels : List (Nat × Nat × Nat)) : List Nat :=
  let rows := pixels.map (fun p => [p.1, p.2.1, p.2.2])
  [0, 0, 0] ++
    (((sortBy (fun a b => a.2 ≤ b.2) (unique_rows rows)).map
        (fun e => e.1)).take 255).flatten

/-- Modelled from the spec: `is_adjacent` as claim C2 words it, with the
y coordinate checked against the grid HEIGHT (§9 of the spec flags the
source's width comparison as a likely defect).  Stated only for
comparison with `is_adjacent`, which follows the source. -/
def is_adjacent_spec (pos : Position) (tile : Tile) (grid : TileGrid)
    (tile_borders : Bool) : Except PyErr Bool :=
  let joining_tiles := [tile.name, "level", "border"]
  if pos.x < 0 ∨ pos.y < 0 ∨ pos.x ≥ (grid.width : Rat) ∨
      pos.y ≥ (grid.height : Rat) then
    .ok tile_borders
  else
    match grid.find pos with
    | none => .error .keyError
    | some occupant => .ok (joining_tiles.contains occupant.name)

/-- Whether an `Except` computation succeeded. -/
def exceptIsOk : Except PyErr α → Bool
  | .ok _ => true
  | .error _ => false

/-! Concrete scenes, grids and tiles used by witnesses and
counterexamples. -/

/-- A position in the z = 0, t = 0 plane. -/
def mkPos (x y : Int) : Position := ⟨(x : Rat), (y : Rat), 0, 0⟩

/-- Sample autotiled tile data named `a`. -/
def tdA : TileData :=
  ⟨⟨0, 3, none⟩, "a", "vanilla", .autotiled, "Hempuli", none, none, none⟩

/-- A fresh autotiled tile named `a` (no explicit frame assigned). -/
def tile_a : Tile := ⟨"a", [], some tdA, TileAttributes.default, none⟩

/-- A fresh tile named `b` with no data; `b` does not join `a`. -/
def tile_b : Tile := ⟨"b", [], none, TileAttributes.default, none⟩

/-- A fresh tile named `x` with no data. -/
def tile_x : Tile := ⟨"x", [], none, TileAttributes.default, none⟩

/-- A 3×3 block of `a` tiles on a grid with width/height maxima 3: every
neighbor of the center (1,1) is occupied, joining and in bounds. -/
def grid_full : TileGrid :=
  ⟨(List.range 3).flatMap
      (fun y => (List.range 3).map (fun x => (mkPos x y, tile_a))),
    3, 3, 1, 24⟩

/-- The scene around `grid_full` (default flags). -/
def scene_full : Scene := { tiles := grid_full, flags := [] }

/-- A grid whose center `a` tile at (1,1) joins only right and up, the
up-right diagonal cell being occupied by a non-joining `b` tile. -/
def grid_ru : TileGrid :=
  ⟨[(mkPos 1 1, tile_a), (mkPos 2 1, tile_a), (mkPos 1 0, tile_a),
    (mkPos 0 1, tile_b), (mkPos 1 2, tile_b), (mkPos 2 0, tile_b),
    (mkPos 0 0, tile_b), (mkPos 0 2, tile_b), (mkPos 2 2, tile_b)],
    3, 3, 1, 24⟩

/-- The scene around `grid_ru`. -/
def scene_ru : Scene := { tiles := grid_ru, flags := [] }

/-- A grid whose center autotiled `a` tile has all four cardinal
neighbor cells occupied by non-joining `b` tiles and all four diagonal
cells EMPTY though in bounds. -/
def grid_diag : TileGrid :=
  ⟨[(mkPos 1 1, tile_a), (mkPos 2 1, tile_b), (mkPos 1 0, tile_b),
    (mkPos 0 1, tile_b), (mkPos 1 2, tile_b)], 3, 3, 1, 24⟩

/-- The scene around `grid_diag`. -/
def scene_diag : Scene := { tiles := grid_diag, flags := [] }

/-- A width-1, height-3 grid with an occupant named `x` at (0, 2): that
position is inside the grid by height but beyond the width the source
compares the y coordinate against. -/
def grid_c2 : TileGrid := ⟨[(mkPos 0 2, tile_x)], 1, 3, 1, 24⟩

/-- A 2×2 processed frame whose four pixels are all RGB (8, 8, 8)
(8 is the smallest channel value the encoder's clip step leaves on an
opaque pixel). -/
def frame_c6 : List (Nat × Nat × Nat) :=
  [(8, 8, 8), (8, 8, 8), (8, 8, 8), (8, 8, 8)]

/-- A scene with no tiles at all: zero canvases are produced. -/
def scene_empty : Scene := { tiles := ⟨[], 0, 0, 1, 24⟩, flags := [] }

/-- An empty grid for cell-level parsing. -/
def grid0 : TileGrid := ⟨[], 0, 0, 1, 24⟩

/-- A grid holding only the autotiled `a` tile at (1,1): every neighbor
cell is unoccupied, and the right neighbor (2,1) passes the bounds
check. -/
def grid_gap : TileGrid := ⟨[(mkPos 1 1, tile_a)], 3, 3, 1, 24⟩

/-- The scene around `grid_gap`. -/
def scene_gap : Scene := { tiles := grid_gap, flags := [] }

/-- Equality of embedded Python results is decidable (used by concrete
evaluations). -/
instance {ε α : Type} [DecidableEq ε] [DecidableEq α] : DecidableEq (Except ε α) := fun a b =>
  match a, b with
  | .ok x, .ok y => decidable_of_iff (x = y) (by simp)
  | .error x, .error y => decidable_of_iff (x = y) (by simp)
  | .ok _, .error _ => isFalse (by simp)
  | .error _, .ok _ => isFalse (by simp)

/-- A hexadecimal digit value is below 16. -/
theorem hexDigitVal_lt {c : Char} {d : Nat} (h : hexDigitVal c = some d) : d < 16 := by
  unfold hexDigitVal at h
  split at h
  · next hd =>
      simp [Char.isDigit] at hd
      have h1 : 48 ≤ c.toNat := hd.1
      have h2 : c.toNat ≤ 57 := hd.2
      injection h with h
      omega
  · split at h
    · next hd =>
        have hl : 97 ≤ c.toNat := hd.1
        have hu : c.toNat ≤ 102 := hd.2
        injection h with h
        omega
    · split at h
      · next hd =>
          have hl : 65 ≤ c.toNat := hd.1
          have hu : c.toNat ≤ 70 := hd.2
          injection h with h
          omega
      · cases h

/-- A character with a hexadecimal digit value is not a comma. -/
theorem hexDigitVal_ne_comma {c : Char} {d : Nat} (h : hexDigitVal c = some d) :
    c ≠ ',' := by
  rintro rfl
  simp [hexDigitVal] at h

/-- Bound on the hexadecimal fold. -/
theorem hexValGo_lt {cs : List Char} : ∀ {acc v : Nat},
    hexValGo acc cs = some v → v < (acc + 1) * 16 ^ cs.length := by
  induction cs with
  | nil =>
    intro acc v h
    injection h with h
    subst h
    simp
  | cons c cs ih =>
    intro acc v h
    unfold hexValGo at h
    cases hd : hexDigitVal c with
    | none => rw [hd] at h; cases h
    | some d =>
      rw [hd] at h
      have hb := hexDigitVal_lt hd
      have h2 := ih h
      calc v < (acc * 16 + d + 1) * 16 ^ cs.length := h2
        _ ≤ ((acc + 1) * 16) * 16 ^ cs.length :=
            Nat.mul_le_mul_right _ (by omega)
        _ = (acc + 1) * 16 ^ (cs.length + 1) := by rw [pow_succ]; ring

/-- Every character consumed by a successful hexadecimal fold is a
hexadecimal digit. -/
theorem hexValGo_all_digits {cs : List Char} : ∀ {acc v : Nat},
    hexValGo acc cs = some v → ∀ c ∈ cs, hexDigitVal c ≠ none := by
  induction cs with
  | nil => intro acc v _ c hc; cases hc
  | cons c0 cs ih =>
    intro acc v h c hc
    unfold hexValGo at h
    cases hd : hexDigitVal c0 with
    | none => rw [hd] at h; cases h
    | some d =>
      rw [hd] at h
      cases hc with
      | head => rw [hd]; intro hh; cases hh
      | tail _ hm => exact ih h c hm

/-- Every character consumed by a successful decimal fold is a digit. -/
theorem digitsValGo_all_digits {cs : List Char} : ∀ {acc v : Nat},
    digitsValGo acc cs = some v → ∀ c ∈ cs, digitVal c ≠ none := by
  induction cs with
  | nil => intro acc v _ c hc; cases hc
  | cons c0 cs ih =>
    intro acc v h c hc
    unfold digitsValGo at h
    cases hd : digitVal c0 with
    | none => rw [hd] at h; cases h
    | some d =>
      rw [hd] at h
      cases hc with
      | head => rw [hd]; intro hh; cases hh
      | tail _ hm => exact ih h c hm

/-- The comma never occurs in a digit string. -/
theorem digitsVal_no_comma {cs : List Char} {v : Nat}
    (h : digitsVal cs = some v) : ',' ∉ cs := by
  intro hmem
  unfold digitsVal at h
  rcases cs with _ | ⟨c, cs⟩
  · cases hmem
  · exact digitsValGo_all_digits h ',' hmem rfl

/-- The comma never occurs in a character list Python `int` accepts. -/
theorem pyIntChars_no_comma {cs : List Char} {a : Int}
    (h : pyIntChars cs = some a) : ',' ∉ cs := by
  unfold pyIntChars at h
  split at h
  · next hhead =>
      rcases cs with _ | ⟨c, cs⟩
      · intro hm; cases hm
      · simp only [List.headD_cons] at hhead
        subst hhead
        simp only [List.tail_cons] at h
        cases hv : digitsVal cs with
        | none => rw [hv] at h; cases h
        | some n =>
          intro hm
          rcases List.mem_cons.mp hm with he | hm2
          · cases he
          · exact digitsVal_no_comma hv hm2
  · cases hv : digitsVal cs with
    | none => rw [hv] at h; cases h
    | some n => exact fun hm => digitsVal_no_comma hv hm

/-- `splitFirst` splits exactly at the first separator. -/
theorem splitFirst_append (sep : Char) (ds es : List Char) (hds : sep ∉ ds) :
    splitFirst sep (ds ++ sep :: es) = (ds, some es) := by
  induction ds with
  | nil => simp [splitFirst]
  | cons c cs ih =>
    have hc : ¬(c = sep) := fun hh => hds (hh ▸ List.mem_cons_self c cs)
    have ih2 := ih (fun hm => hds (List.mem_cons_of_mem c hm))
    simp [List.cons_append, splitFirst, if_neg hc, ih2]

/-- The bit-mask extraction of one byte (the `(rgb & 0xFF00) >> 8`
pattern of `Color.__init__`). -/
theorem and_ff_shift (v k : Nat) : (v &&& (255 <<< k)) >>> k = v / 2 ^ k % 256 := by
  have h1 : (v &&& (255 <<< k)) >>> k = (v >>> k) &&& 255 := by
    apply Nat.eq_of_testBit_eq
    intro i
    simp [Nat.testBit_shiftRight, Nat.testBit_and, Nat.testBit_shiftLeft,
      Nat.le_add_right, Nat.add_sub_cancel_left]
  rw [h1, Nat.shiftRight_eq_div_pow]
  have h2 := Nat.and_pow_two_sub_one_eq_mod (v / 2 ^ k) 8
  norm_num at h2
  exact h2

/-- C9: constructing a `Color` from `#` followed by exactly six
hexadecimal digits yields the three RGB components equal to the three
bytes of the hexadecimal value, and reading the components back
(`__iter__`) reproduces exactly those bytes; constructing from a string
`a,b` with two base-10 integer fields yields the palette index pair
`(a, b)` with no third component, and reading it back reproduces the
pair.  (The hex case assumes the string is not itself a registered color
name, since the `COLOR_NAMES` check precedes the hex branch.) -/
theorem c9_color_roundtrips (colorNames : List (String × (Int × Int))) :
    (∀ c1 c2 c3 c4 c5 c6 : Char, ∀ v : Nat,
      hexVal [c1, c2, c3, c4, c5, c6] = some v →
      colorNames.find? (fun p => p.1 = String.mk ['#', c1, c2, c3, c4, c5, c6]) = none →
      v < 16 ^ 6 ∧
      color_init colorNames (String.mk ['#', c1, c2, c3, c4, c5, c6]) =
        some ⟨((v / 65536 : Nat) : Int), ((v / 256 % 256 : Nat) : Int),
              some ((v % 256 : Nat) : Int)⟩ ∧
      colorIter ⟨((v / 65536 : Nat) : Int), ((v / 256 % 256 : Nat) : Int),
              some ((v % 256 : Nat) : Int)⟩ =
        [((v / 65536 : Nat) : Int), ((v / 256 % 256 : Nat) : Int), ((v % 256 : Nat) : Int)]) ∧
    (∀ xs ys : List Char, ∀ a b : Int,
      pyIntChars xs = some a → pyIntChars ys = some b →
      color_init colorNames (String.mk (xs ++ ',' :: ys)) =
        some ⟨a, b, none⟩ ∧
      colorIter ⟨a, b, none⟩ = [a, b]) := by
  constructor
  · intro c1 c2 c3 c4 c5 c6 v hv hfind
    have hall := @hexValGo_all_digits [c1, c2, c3, c4, c5, c6] 0 v hv
    have hvlt : v < 16 ^ 6 := by
      have h2 := @hexValGo_lt [c1, c2, c3, c4, c5, c6] 0 v hv
      norm_num at h2
      exact h2
    have hv24 : v < 16777216 := by
      have h16 : (16 : Nat) ^ 6 = 16777216 := by norm_num
      rw [h16] at hvlt
      exact hvlt
    refine ⟨hvlt, ?_, rfl⟩
    have hnotmem : ¬(',' ∈ ('#' :: [c1, c2, c3, c4, c5, c6] : List Char)) := by
      intro hm
      rcases List.mem_cons.mp hm with he | hm2
      · exact absurd he (by decide)
      · exact hall ',' hm2 rfl
    have hnc : (('#' :: [c1, c2, c3, c4, c5, c6] : List Char).contains ',') = false := by
      cases hcc : (('#' :: [c1, c2, c3, c4, c5, c6] : List Char).contains ',') with
      | false => rfl
      | true => exact absurd (List.mem_of_elem_eq_true hcc) hnotmem
    have e1 : ((v &&& 0xFF0000) >>> 16) = v / 65536 := by
      have m1 : (0xFF0000 : Nat) = 255 <<< 16 := by decide
      rw [m1, and_ff_shift]
      have h16b : (2 : Nat) ^ 16 = 65536 := by norm_num
      rw [h16b]
      exact Nat.mod_eq_of_lt (by omega)
    have e2 : ((v &&& 0xFF00) >>> 8) = v / 256 % 256 := by
      have m2 : (0xFF00 : Nat) = 255 <<< 8 := by decide
      rw [m2, and_ff_shift]
      norm_num
    have e3 : (v &&& 0xFF) = v % 256 := by
      have h3 := Nat.and_pow_two_sub_one_eq_mod v 8
      norm_num at h3
      exact h3
    unfold color_init
    simp only [show (String.mk ('#' :: [c1, c2, c3, c4, c5, c6])).data =
      '#' :: [c1, c2, c3, c4, c5, c6] from rfl]
    rw [hnc]
    simp only [Bool.false_eq_true, if_false]
    rw [hfind]
    simp [hv, e1, e2, e3]
  · intro xs ys a b hx hy
    refine ⟨?_, rfl⟩
    have hxs := pyIntChars_no_comma hx
    have hmem : ',' ∈ xs ++ ',' :: ys :=
      List.mem_append.mpr (Or.inr (List.mem_cons_self ',' ys))
    have hcon : ((xs ++ ',' :: ys).contains ',') = true :=
      List.elem_eq_true_of_mem hmem
    unfold color_init
    simp only [show (String.mk (xs ++ ',' :: ys)).data = xs ++ ',' :: ys from rfl]
    rw [hcon]
    simp only [if_true]
    rw [splitFirst_append ',' xs ys hxs]
    simp [hx, hy]

/-- Witness for C9 at the concrete inputs `#7289DA` and `4,1`. -/
theorem c9_witness :
    color_init [] (String.mk ['#', '7', '2', '8', '9', 'D', 'A']) =
      some ⟨114, 137, some 218⟩ ∧
    color_init [] (String.mk (['4'] ++ ',' :: ['1'])) = some ⟨4, 1, none⟩ := by
  constructor
  · have h := (c9_color_roundtrips []).1 '7' '2' '8' '9' 'D' 'A' 7506394 (by decide) rfl
    have h2 := h.2.1
    norm_num at h2
    exact h2
  · exact ((c9_color_roundtrips []).2 ['4'] ['1'] 4 1 (by decide) (by decide)).1

/-- C2 (code-bug evidence): the source `is_adjacent` compares the
y coordinate against the grid *width*, not the height.  At position
(0, 2) of a width-1/height-3 grid whose occupant's name matches the
tile's own name, the source returns the border policy flag (`false`
here) although the position is inside the grid by height and the
occupant joins; the height-checked variant the claim describes returns
`true` there. -/
theorem c2_y_bound_uses_width_not_height :
    is_adjacent (mkPos 0 2) tile_x grid_c2 false = .ok false ∧
    is_adjacent_spec (mkPos 0 2) tile_x grid_c2 false = .ok true ∧
    (mkPos 0 2).y < (grid_c2.height : Rat) ∧
    grid_c2.find (mkPos 0 2) = some tile_x := by
  refine ⟨by decide, by decide, by decide, by decide⟩

/-- C4 (code-bug evidence): resolving `displace` with the single
supplied argument `4` leaves the second slot unfilled, and the
"not enough arguments" `CustomError` is raised — but the count in its
message is `len(variant.arguments)`, the number of *supplied* arguments
(1), not the 2 arguments the signature requires, making the message
self-contradictory ("Only 1 ... requires at least 1"). -/
theorem c4_not_enough_arguments_counts_supplied :
    registry_parse chilly_registry [] "displace" ["4"] =
      .error (.customError
        "Only `1` arguments were provided to the variant `:displace/4`, but it requires at least `1`.") ∧
    (chilly_registry.find? (fun d => d.names.contains "displace")).map
        (fun d => d.arguments.length) = some 2 := by
  refine ⟨by decide, by decide⟩

/-- C6 (code-bug evidence): `encode_frames` hands `sort_colors` a
3-channel array, but `sort_colors` reshapes the flat byte buffer into
rows of FOUR, so the "colors" in the palette are 4-byte chunks of the
RGB stream.  For a 2×2 frame whose four pixels are all RGB (8, 8, 8)
the code builds the palette bytes [0,0,0, 8,8,8,8] (a 4-byte chunk after
the transparent color), while the palette the claim describes is
[0,0,0, 8,8,8]. -/
theorem c6_palette_from_4_byte_chunks :
    gif_palette frame_c6 = some [0, 0, 0, 8, 8, 8, 8] ∧
    spec_palette frame_c6 = [0, 0, 0, 8, 8, 8] ∧
    gif_palette frame_c6 ≠ some (spec_palette frame_c6) := by
  refine ⟨by decide, by decide, by decide⟩

/-- C10 counterexample: the zero-canvases condition raised by `render`
is a `CustomError` — exactly the same exception class as the
user-input unknown-variant condition (and as the no-sprite-found
condition), so it does not belong to a distinct error category. -/
theorem c10_counterexample_shared_class :
    render scene_empty = .error (.customError render_no_frames_msg) ∧
    registry_parse chilly_registry [] "nope" [] =
      .error (.customError "Couldn't find a variant called `nope`.") ∧
    (PyErr.customError render_no_frames_msg).className =
      (PyErr.customError "Couldn't find a variant called `nope`.").className := by
  refine ⟨by decide, by decide, rfl⟩

/-- C10 amended: `render` fails exactly when zero canvases were
produced across the scene, and the condition it raises is a
`CustomError` — the same exception class as user-input conditions such
as unknown-variant and no-sprite-found (only bad-argument conditions
use the separate `ArgumentError` class); it differs from them only in
its message text. -/
theorem c10_render_zero_frames_custom_error (scene : Scene) :
    (render_frames scene = [] →
      render scene = .error (.customError render_no_frames_msg)) ∧
    (render_frames scene ≠ [] → render scene = .ok (render_frames scene)) ∧
    ∀ msg : String,
      (PyErr.customError render_no_frames_msg).className =
        (PyErr.customError msg).className := by
  refine ⟨?_, ?_, fun _ => rfl⟩
  · intro h
    simp [render, h]
  · intro h
    simp [render, h]

/-- Witness for C10's amended theorem at the empty scene. -/
theorem c10_witness :
    render scene_empty = .error (.customError render_no_frames_msg) :=
  (c10_render_zero_frames_custom_error scene_empty).1 (by decide)

/-- C5: for a tile whose sprite identity resolved to `(world, stem)` and
whose frame pair is `(f0, f1)`, each wobble sub-frame w tries the
filenames `stem_f0_w`, `stem_f1_w`, `stem_f0_1`, `stem_f1_1` in exactly
that order and loads the first that exists; when none of the four
exists it fails with the "no sprite found" `CustomError` naming the
tile and the primary frame.  The second conjunct ties the chain into
`assign_sprites`: every such tile is resolved by running `load_wobble`
for wobble frames 1, 2, 3. -/
theorem c5_sprite_fallback_chain (fs : String → Bool)
    (tile_name world stem : String) (f0 f1 : Int) (w : Nat) :
    ((fs (sprite_path world (stem ++ "_" ++ toString f0 ++ "_" ++ toString w)) = true →
      load_wobble fs tile_name world stem (some f0) f1 w =
        .ok (sprite_path world (stem ++ "_" ++ toString f0 ++ "_" ++ toString w))) ∧
     (fs (sprite_path world (stem ++ "_" ++ toString f0 ++ "_" ++ toString w)) = false →
      fs (sprite_path world (stem ++ "_" ++ toString f1 ++ "_" ++ toString w)) = true →
      load_wobble fs tile_name world stem (some f0) f1 w =
        .ok (sprite_path world (stem ++ "_" ++ toString f1 ++ "_" ++ toString w))) ∧
     (fs (sprite_path world (stem ++ "_" ++ toString f0 ++ "_" ++ toString w)) = false →
      fs (sprite_path world (stem ++ "_" ++ toString f1 ++ "_" ++ toString w)) = false →
      fs (sprite_path world (stem ++ "_" ++ toString f0 ++ "_1")) = true →
      load_wobble fs tile_name world stem (some f0) f1 w =
        .ok (sprite_path world (stem ++ "_" ++ toString f0 ++ "_1"))) ∧
     (fs (sprite_path world (stem ++ "_" ++ toString f0 ++ "_" ++ toString w)) = false →
      fs (sprite_path world (stem ++ "_" ++ toString f1 ++ "_" ++ toString w)) = false →
      fs (sprite_path world (stem ++ "_" ++ toString f0 ++ "_1")) = false →
      fs (sprite_path world (stem ++ "_" ++ toString f1 ++ "_1")) = true →
      load_wobble fs tile_name world stem (some f0) f1 w =
        .ok (sprite_path world (stem ++ "_" ++ toString f1 ++ "_1"))) ∧
     (fs (sprite_path world (stem ++ "_" ++ toString f0 ++ "_" ++ toString w)) = false →
      fs (sprite_path world (stem ++ "_" ++ toString f1 ++ "_" ++ toString w)) = false →
      fs (sprite_path world (stem ++ "_" ++ toString f0 ++ "_1")) = false →
      fs (sprite_path world (stem ++ "_" ++ toString f1 ++ "_1")) = false →
      load_wobble fs tile_name world stem (some f0) f1 w =
        .error (.customError ("Failed to find any sprites for `" ++ tile_name ++
          "` at animation frame `" ++ toString f0 ++ "`.")))) ∧
    (∀ (pick : List (String × String) → Option (String × String))
       (db : List (String × TileData)) (tile : Tile) (d : TileData),
      tile.data = some d → tile.name ≠ "2" →
      tile.attrs.frame = some (some f0, f1) →
      assign_tile_sprite fs pick db tile =
        exceptMapList
          (fun ww => load_wobble fs tile.name d.world d.sprite (some f0) f1 ww)
          [1, 2, 3]) := by
  constructor
  · refine ⟨?_, ?_, ?_, ?_, ?_⟩
    · intro h1
      simp [load_wobble, find_sprite_path, sprite_fallbacks, pyShowOptInt, h1]
    · intro h1 h2
      simp [load_wobble, find_sprite_path, sprite_fallbacks, pyShowOptInt, h1, h2]
    · intro h1 h2 h3
      simp [load_wobble, find_sprite_path, sprite_fallbacks, pyShowOptInt, h1, h2, h3]
    · intro h1 h2 h3 h4
      simp [load_wobble, find_sprite_path, sprite_fallbacks, pyShowOptInt, h1, h2, h3, h4]
    · intro h1 h2 h3 h4
      simp [load_wobble, find_sprite_path, sprite_fallbacks, pyShowOptInt, h1, h2, h3, h4]
  · intro pick db tile d hd hn hf
    simp only [assign_tile_sprite, hd, hn, hf, if_neg hn]
    rfl

/-- Witness for C5. -/
theorem c5_witness :
    load_wobble (fun s => s == "data/vanilla/sprites/wall_1_2.png")
        "wall" "vanilla" "wall" (some 1) 0 2 =
      .ok "data/vanilla/sprites/wall_1_2.png" ∧
    load_wobble (fun _ => false) "wall" "vanilla" "wall" (some 1) 0 2 =
      .error (.customError
        "Failed to find any sprites for `wall` at animation frame `1`.") := by
  constructor
  · exact (c5_sprite_fallback_chain
      (fun s => s == "data/vanilla/sprites/wall_1_2.png")
      "wall" "vanilla" "wall" 1 0 2).1.1 (by decide)
  · exact (c5_sprite_fallback_chain (fun _ => false)
      "wall" "vanilla" "wall" 1 0 2).1.2.2.2.2 rfl rfl rfl rfl

theorem except_ok_bind {β γ : Type} (a : β) (f : β → Except PyErr γ) :
    (Except.ok a >>= f) = f a := rfl

theorem except_error_bind {β γ : Type} (e : PyErr) (f : β → Except PyErr γ) :
    ((Except.error e : Except PyErr β) >>= f) = .error e := rfl

theorem except_map_ok {β γ : Type} (f : β → γ) (a : β) :
    f <$> (Except.ok a : Except PyErr β) = .ok (f a) := rfl

theorem except_map_error {β γ : Type} (f : β → γ) (e : PyErr) :
    f <$> (Except.error e : Except PyErr β) = .error e := rfl

/-- Invariant of the step loop: tiles named `.` or with the empty name
are never inserted (an empty name is replaced by the inherited name
before insertion). -/
theorem step_go_names (tv : Nat → Option Int) (registry : List VariantData)
    (cn : List (String × (Int × Int))) (db : List (String × TileData))
    (grid : TileGrid) (x y z : Nat) :
    ∀ (steps : List String) (t : Nat) (last : Option Tile)
      (res : List (Position × Tile)),
      (∀ lt, last = some lt → lt.name ≠ "." ∧ lt.name ≠ "") →
      step_go tv registry cn db grid x y z steps t last = .ok res →
      ∀ pt ∈ res, pt.2.name ≠ "." ∧ pt.2.name ≠ "" := by
  intro steps
  induction steps with
  | nil =>
    intro t last res _ h pt hm
    injection h with h
    subst h
    cases hm
  | cons raw rest ih =>
    intro t last res hlast h pt hm
    unfold step_go at h
    cases hpt : parse_tile tv registry cn db grid raw x y z t with
    | error e =>
      rw [hpt, except_error_bind] at h
      cases h
    | ok tp =>
      rw [hpt, except_ok_bind] at h
      by_cases hdot : tp.1.name = "."
      · rw [if_pos hdot] at h
        exact ih (t + 1) none res (fun lt hl => by cases hl) h pt hm
      · rw [if_neg hdot] at h
        by_cases hemp : tp.1.name = ""
        · rw [if_pos hemp] at h
          cases hl : last with
          | none =>
            rw [hl] at h
            exact ih (t + 1) none res (fun lt hh => by cases hh) h pt hm
          | some lt =>
            rw [hl] at h
            simp only [] at h
            have hlt := hlast lt hl
            cases hrec : step_go tv registry cn db grid x y z rest (t + 1)
                (some ⟨lt.name, tp.1.variants, tp.1.data, tp.1.attrs, tp.1.sprite⟩) with
            | error e =>
              rw [hrec, except_map_error] at h
              cases h
            | ok l =>
              rw [hrec, except_map_ok] at h
              injection h with h
              subst h
              cases hm with
              | head => exact hlt
              | tail _ hm2 =>
                refine ih (t + 1)
                  (some ⟨lt.name, tp.1.variants, tp.1.data, tp.1.attrs, tp.1.sprite⟩)
                  l ?_ hrec pt hm2
                intro lt2 hh
                injection hh with hh
                subst hh
                exact hlt
        · rw [if_neg hemp] at h
          cases hrec : step_go tv registry cn db grid x y z rest (t + 1)
              (some tp.1) with
          | error e =>
            rw [hrec, except_map_error] at h
            cases h
          | ok l =>
            rw [hrec, except_map_ok] at h
            injection h with h
            subst h
            cases hm with
            | head => exact ⟨hdot, hemp⟩
            | tail _ hm2 =>
              refine ih (t + 1) (some tp.1) l ?_ hrec pt hm2
              intro lt2 hh
              injection hh with hh
              subst hh
              exact ⟨hdot, hemp⟩

/-- C7: during scene parsing, a step token `.` is never inserted into
the grid and clears the last-tile reference for the following step
index; an empty token takes the name of the previous step tile when one
exists and is skipped entirely otherwise; and the concrete cell `x>`
yields a tile named `x` at step 0 and a tile named `x` at step 1. -/
theorem c7_dot_and_empty_name_steps (tv : Nat → Option Int)
    (registry : List VariantData) (cn : List (String × (Int × Int)))
    (db : List (String × TileData)) (grid : TileGrid) (x y z : Nat) :
    (∀ (cell : String) (res : List (Position × Tile)),
      parse_cell tv registry cn db grid x y z cell = .ok res →
      ∀ pt ∈ res, pt.2.name ≠ "." ∧ pt.2.name ≠ "") ∧
    (∀ (rest : List String) (t : Nat) (last : Option Tile),
      step_go tv registry cn db grid x y z ("." :: rest) t last =
        step_go tv registry cn db grid x y z rest (t + 1) none) ∧
    (∀ (rest : List String) (t : Nat),
      step_go tv registry cn db grid x y z ("" :: rest) t none =
        step_go tv registry cn db grid x y z rest (t + 1) none) ∧
    (∀ (rest : List String) (t : Nat) (lt : Tile), ∃ tile pos,
      parse_tile tv registry cn db grid "" x y z t = .ok (tile, pos) ∧
      tile.name = "" ∧
      step_go tv registry cn db grid x y z ("" :: rest) t (some lt) =
        (fun l => (pos, (⟨lt.name, tile.variants, tile.data, tile.attrs,
            tile.sprite⟩ : Tile)) :: l) <$>
          step_go tv registry cn db grid x y z rest (t + 1)
            (some ⟨lt.name, tile.variants, tile.data, tile.attrs, tile.sprite⟩)) ∧
    (parse_cell (fun _ => some 0) chilly_registry [] [] grid0 0 0 0 "x>").map
        (fun l => l.map (fun pt => (pt.1.t, pt.2.name))) =
      .ok [(0, "x"), (1, "x")] := by
  refine ⟨?_, ?_, ?_, ?_, by decide⟩
  · intro cell res h
    exact step_go_names tv registry cn db grid x y z _ 0 none res
      (fun lt hl => by cases hl) h
  · intro rest t last
    rfl
  · intro rest t
    rfl
  · intro rest t lt
    refine ⟨_, _, rfl, rfl, rfl⟩

/-- Witness for C7: the parsed cell `x>` and a concrete `.` step. -/
theorem c7_witness :
    (∀ pt ∈ [((⟨0, 0, 0, 0⟩ : Position),
              (⟨"x", [], none, TileAttributes.default, none⟩ : Tile)),
             ((⟨0, 0, 0, 1⟩ : Position),
              (⟨"x", [], none, TileAttributes.default, none⟩ : Tile))],
      pt.2.name ≠ "." ∧ pt.2.name ≠ "") ∧
    step_go (fun _ => some 0) chilly_registry [] [] grid0 0 0 0 ["."] 5 none =
      step_go (fun _ => some 0) chilly_registry [] [] grid0 0 0 0 [] 6 none := by
  constructor
  · exact (c7_dot_and_empty_name_steps (fun _ => some 0) chilly_registry [] []
      grid0 0 0 0).1 "x>" _ (by decide)
  · exact (c7_dot_and_empty_name_steps (fun _ => some 0) chilly_registry [] []
      grid0 0 0 0).2.1 [] 5 none

/-- A tile with no sprite identity (no data, not the easter egg) makes
`assign_sprites` raise the "no tile with that name" error. -/
theorem assign_no_data (fs : String → Bool)
    (pick : List (String × String) → Option (String × String))
    (db : List (String × TileData)) (tile : Tile) (hd : tile.data = none)
    (hn : tile.name ≠ "2") :
    assign_tile_sprite fs pick db tile =
      .error (.customError
        ("There's no tile with the name `" ++ tile.name ++ "`.")) := by
  simp only [assign_tile_sprite, hd, hn, if_neg hn]
  rfl

/-- C8: a tile created through empty-name inheritance performs its
`TileData` lookup with the empty name before the name is inherited, so
its `data` field is the database entry for the empty name — `none`
whenever the database has no empty-name entry, regardless of whether
the inherited name exists in the database — and sprite assignment on
such a tile (inherited name not the `2` easter egg) raises the
"no tile with that name" `CustomError`. -/
theorem c8_inherited_tile_data_lookup (tv : Nat → Option Int)
    (registry : List VariantData) (cn : List (String × (Int × Int)))
    (db : List (String × TileData)) (grid : TileGrid) (x y z : Nat)
    (rest : List String) (t : Nat) (lt : Tile) (fs : String → Bool)
    (pick : List (String × String) → Option (String × String)) :
    ∃ tile pos,
      parse_tile tv registry cn db grid "" x y z t = .ok (tile, pos) ∧
      tile.data = (db.find? (fun e => e.1 = "")).map (fun e => e.2) ∧
      step_go tv registry cn db grid x y z ("" :: rest) t (some lt) =
        (fun l => (pos, (⟨lt.name, tile.variants, tile.data, tile.attrs,
            tile.sprite⟩ : Tile)) :: l) <$>
          step_go tv registry cn db grid x y z rest (t + 1)
            (some ⟨lt.name, tile.variants, tile.data, tile.attrs, tile.sprite⟩) ∧
      (db.find? (fun e => e.1 = "") = none → lt.name ≠ "2" →
        assign_tile_sprite fs pick db
            ⟨lt.name, tile.variants, tile.data, tile.attrs, tile.sprite⟩ =
          .error (.customError
            ("There's no tile with the name `" ++ lt.name ++ "`."))) := by
  refine ⟨_, _, rfl, rfl, rfl, ?_⟩
  intro hdb hn
  refine assign_no_data fs pick db _ ?_ hn
  show (db.find? (fun e => e.1 = "")).map (fun e => e.2) = none
  rw [hdb]
  rfl

/-- Witness for C8: an empty step token inheriting the name `x` over an
empty database still fails sprite assignment. -/
theorem c8_witness :
    assign_tile_sprite (fun _ => false) (fun _ => none) []
        ⟨"x", [], none, TileAttributes.default, none⟩ =
      .error (.customError "There's no tile with the name `x`.") := by
  obtain ⟨tile, pos, h1, h2, h3, h4⟩ :=
    c8_inherited_tile_data_lookup (fun _ => some 0) chilly_registry [] [] grid0
      0 0 0 [] 0 tile_x (fun _ => false) (fun _ => none)
  have h5 := h4 rfl (by decide)
  have he := h1
  rw [show parse_tile (fun _ => some 0) chilly_registry [] [] grid0 "" 0 0 0 0 =
      Except.ok ((⟨"", [], none, TileAttributes.default, none⟩ : Tile),
        (⟨0, 0, 0, 0⟩ : Position)) by decide] at he
  injection he with he2
  injection he2 with ht hp
  rw [← ht] at h5
  exact h5

/-- `is_adjacent` either returns a boolean or raises `KeyError`. -/
theorem is_adjacent_ok_or_keyError (pos : Position) (tile : Tile)
    (grid : TileGrid) (tb : Bool) :
    (∃ b, is_adjacent pos tile grid tb = .ok b) ∨
      is_adjacent pos tile grid tb = .error .keyError := by
  unfold is_adjacent
  split
  · exact .inl ⟨tb, rfl⟩
  · cases h : grid.find pos with
    | none => exact .inr rfl
    | some occ => exact .inl ⟨_, rfl⟩

/-- An in-bounds position with no occupant raises `KeyError` in
`is_adjacent` (the bounds being the source's width-based ones). -/
theorem is_adjacent_keyError_of_missing (pos : Position) (tile : Tile)
    (grid : TileGrid) (tb : Bool)
    (hb : ¬(pos.x < 0 ∨ pos.y < 0 ∨ pos.x ≥ (grid.width : Rat) ∨
        pos.y ≥ (grid.width : Rat)))
    (hm : grid.find pos = none) :
    is_adjacent pos tile grid tb = .error .keyError := by
  unfold is_adjacent
  rw [if_neg hb, hm]

/-- A raised exception anywhere in a collecting loop fails the loop. -/
theorem exceptMapList_error_of_mem {α β : Type} {f : α → Except PyErr β}
    {l : List α} {x : α} (hx : x ∈ l) (e0 : PyErr) (hfx : f x = .error e0) :
    ∃ e, exceptMapList f l = .error e := by
  induction l with
  | nil => cases hx
  | cons y ys ih =>
    cases hfy : f y with
    | error e =>
      exact ⟨e, by unfold exceptMapList; rw [hfy]; rfl⟩
    | ok v =>
      cases hx with
      | head => rw [hfy] at hfx; cases hfx
      | tail _ hmem =>
        obtain ⟨e, he⟩ := ih hmem
        refine ⟨e, ?_⟩
        unfold exceptMapList
        rw [hfy, except_ok_bind, he]
        rfl

/-- A missing in-bounds cardinal neighbor makes the 8-neighbor probe of
`connect_autotiled` raise `KeyError` (the four cardinal probes run
unconditionally, before any diagonal short-circuiting). -/
theorem autotile_bitfield_keyError_of_cardinal_missing
    (grid : TileGrid) (pos : Position) (tile : Tile) (tb : Bool)
    (cpos : Position)
    (hc : cpos ∈ [{ pos with x := pos.x + 1 }, { pos with y := pos.y - 1 },
                  { pos with x := pos.x - 1 }, { pos with y := pos.y + 1 }])
    (hb : ¬(cpos.x < 0 ∨ cpos.y < 0 ∨ cpos.x ≥ (grid.width : Rat) ∨
        cpos.y ≥ (grid.width : Rat)))
    (hm : grid.find cpos = none) :
    autotile_bitfield grid pos tile tb = .error .keyError := by
  have hkey := is_adjacent_keyError_of_missing cpos tile grid tb hb hm
  simp only [List.mem_cons, List.not_mem_nil, or_false] at hc
  rcases hc with rfl | rfl | rfl | rfl
  · simp [autotile_bitfield, hkey, except_error_bind]
  · rcases is_adjacent_ok_or_keyError { pos with x := pos.x + 1 } tile grid tb with
      ⟨b1, h1⟩ | h1 <;>
      simp [autotile_bitfield, h1, hkey, except_ok_bind, except_error_bind]
  · rcases is_adjacent_ok_or_keyError { pos with x := pos.x + 1 } tile grid tb with
      ⟨b1, h1⟩ | h1 <;>
    rcases is_adjacent_ok_or_keyError { pos with y := pos.y - 1 } tile grid tb with
      ⟨b2, h2⟩ | h2 <;>
      simp [autotile_bitfield, h1, h2, hkey, except_ok_bind, except_error_bind]
  · rcases is_adjacent_ok_or_keyError { pos with x := pos.x + 1 } tile grid tb with
      ⟨b1, h1⟩ | h1 <;>
    rcases is_adjacent_ok_or_keyError { pos with y := pos.y - 1 } tile grid tb with
      ⟨b2, h2⟩ | h2 <;>
    rcases is_adjacent_ok_or_keyError { pos with x := pos.x - 1 } tile grid tb with
      ⟨b3, h3⟩ | h3 <;>
      simp [autotile_bitfield, h1, h2, h3, hkey, except_ok_bind, except_error_bind]

/-- C3 amended: `is_adjacent` is partial over sparse grids — every
position that passes the (width-based) bounds check but has no occupant
raises `KeyError` through the grid lookup — and consequently
`connect_autotiled` fails on any processed autotiled tile (no explicit
frame, autotiled data) one of whose CARDINAL neighbor cells passes the
bounds check while unoccupied.  (An unoccupied diagonal cell only fails
when both adjacent cardinals join; see the counterexample.) -/
theorem c3_sparse_lookup_keyError (tv : Nat → Option Int) (scene : Scene)
    (pos : Position) (tile : Tile) (cpos : Position)
    (hfr : tile.attrs.frame = none) (hd : tile.data ≠ none)
    (hat : (tile.data.map TileData.tiling).getD .none = Tiling.autotiled)
    (hc : cpos ∈ [{ pos with x := pos.x + 1 }, { pos with y := pos.y - 1 },
                  { pos with x := pos.x - 1 }, { pos with y := pos.y + 1 }])
    (hb : ¬(cpos.x < 0 ∨ cpos.y < 0 ∨ cpos.x ≥ (scene.tiles.width : Rat) ∨
        cpos.y ≥ (scene.tiles.width : Rat)))
    (hm : scene.tiles.find cpos = none) :
    (∀ (pos2 : Position) (tile2 : Tile) (grid : TileGrid) (tb : Bool),
      ¬(pos2.x < 0 ∨ pos2.y < 0 ∨ pos2.x ≥ (grid.width : Rat) ∨
          pos2.y ≥ (grid.width : Rat)) →
      grid.find pos2 = none →
      is_adjacent pos2 tile2 grid tb = .error .keyError) ∧
    connect_tile_frame tv scene pos tile = .error .keyError ∧
    ((pos, tile) ∈ scene.tiles.tiles →
      ∃ e, connect_autotiled tv scene = .error e) := by
  have hbit := autotile_bitfield_keyError_of_cardinal_missing scene.tiles pos
    tile scene.connect_borders cpos hc hb hm
  have hconn : connect_tile_frame tv scene pos tile = .error .keyError := by
    unfold connect_tile_frame
    rw [if_neg (by simp [hfr, hd]), if_neg (by simp [hat]), hbit,
      except_error_bind]
  refine ⟨fun pos2 tile2 grid tb hb2 hm2 =>
    is_adjacent_keyError_of_missing pos2 tile2 grid tb hb2 hm2, hconn, ?_⟩
  intro hmem
  have hfx : (connect_tile_frame tv scene pos tile >>= fun f =>
      (Except.ok (pos, { tile with attrs := { tile.attrs with frame := f } }) :
        Except PyErr (Position × Tile))) = Except.error PyErr.keyError := by
    rw [hconn]
    rfl
  exact exceptMapList_error_of_mem hmem PyErr.keyError hfx

/-- C3 counterexample: an autotiled tile whose four diagonal neighbor
cells are unoccupied though in bounds, while its cardinal neighbors are
occupied by non-joining tiles.  The diagonal probes are short-circuited
(`u and r and is_adjacent(...)`), so no `KeyError` is raised and the
whole `connect_autotiled` pass succeeds — refuting the claim that an
autotiled tile with ANY in-bounds unoccupied neighbor cell makes it
fail. -/
theorem c3_counterexample_diagonal_not_probed :
    tile_a.attrs.frame = none ∧
    (tile_a.data.map TileData.tiling).getD .none = Tiling.autotiled ∧
    (mkPos 1 1, tile_a) ∈ scene_diag.tiles.tiles ∧
    scene_diag.tiles.find (mkPos 2 0) = none ∧
    ¬((mkPos 2 0).x < 0 ∨ (mkPos 2 0).y < 0 ∨
      (mkPos 2 0).x ≥ (scene_diag.tiles.width : Rat) ∨
      (mkPos 2 0).y ≥ (scene_diag.tiles.width : Rat)) ∧
    connect_tile_frame (fun _ => some 0) scene_diag (mkPos 1 1) tile_a =
      .ok (some (some 0, 0)) ∧
    exceptIsOk (connect_autotiled (fun _ => some 0) scene_diag) = true := by
  refine ⟨rfl, rfl, by decide, by decide, by decide, by decide, by decide⟩

/-- Witness for C3's amended theorem: the lone autotiled tile of
`grid_gap` has its right neighbor (2,1) unoccupied and in bounds, and
its pass raises `KeyError`. -/
theorem c3_witness :
    connect_tile_frame (fun _ => some 0) scene_gap (mkPos 1 1) tile_a =
      .error .keyError :=
  (c3_sparse_lookup_keyError (fun _ => some 0) scene_gap (mkPos 1 1) tile_a
    (mkPos 2 1) rfl (by decide) rfl (by decide) (by decide) (by decide)).2.1

theorem except_pure {β : Type} (a : β) : (pure a : Except PyErr β) = .ok a := rfl

/-- The diagonal and cardinal bits of the assembled bitfield. -/
theorem neighbor_bitfield_testBits : ∀ r u l d ur ul dl dr : Bool,
    (neighbor_bitfield r u l d ur ul dl dr).testBit 7 = r ∧
    (neighbor_bitfield r u l d ur ul dl dr).testBit 6 = u ∧
    (neighbor_bitfield r u l d ur ul dl dr).testBit 5 = l ∧
    (neighbor_bitfield r u l d ur ul dl dr).testBit 4 = d ∧
    (neighbor_bitfield r u l d ur ul dl dr).testBit 3 = ur ∧
    (neighbor_bitfield r u l d ur ul dl dr).testBit 2 = ul ∧
    (neighbor_bitfield r u l d ur ul dl dr).testBit 1 = dl ∧
    (neighbor_bitfield r u l d ur ul dl dr).testBit 0 = dr := by decide

set_option maxHeartbeats 2000000 in
/-- C1: for a tile with no explicit frame and autotiled `TileData`, the
autotile resolver's 8-bit neighbor bitfield carries each cardinal join
in bits 7..4 and sets a diagonal bit (3..0) exactly when both of that
diagonal's adjacent cardinal neighbors join AND the diagonal cell
itself joins; in particular all eight joins give bitfield `0b11111111`,
and joins only at right and up (up-right cell not joining) give
`0b11000000`.  The final conjunct ties the bitfield into the frame the
resolver assigns. -/
theorem c1_autotile_diagonal_gating (tv : Nat → Option Int) (scene : Scene)
    (pos : Position) (tile : Tile) (br bu bl bd bur bul bdl bdr : Bool)
    (hfr : tile.attrs.frame = none) (hd : tile.data ≠ none)
    (hat : (tile.data.map TileData.tiling).getD .none = Tiling.autotiled)
    (hR : is_adjacent { pos with x := pos.x + 1 } tile scene.tiles
      scene.connect_borders = .ok br)
    (hU : is_adjacent { pos with y := pos.y - 1 } tile scene.tiles
      scene.connect_borders = .ok bu)
    (hL : is_adjacent { pos with x := pos.x - 1 } tile scene.tiles
      scene.connect_borders = .ok bl)
    (hD : is_adjacent { pos with y := pos.y + 1 } tile scene.tiles
      scene.connect_borders = .ok bd)
    (hUR : bu = true → br = true →
      is_adjacent { pos with x := pos.x + 1, y := pos.y - 1 } tile scene.tiles
        scene.connect_borders = .ok bur)
    (hUL : bu = true → bl = true →
      is_adjacent { pos with x := pos.x - 1, y := pos.y - 1 } tile scene.tiles
        scene.connect_borders = .ok bul)
    (hDL : bd = true → bl = true →
      is_adjacent { pos with x := pos.x - 1, y := pos.y + 1 } tile scene.tiles
        scene.connect_borders = .ok bdl)
    (hDR : bd = true → br = true →
      is_adjacent { pos with x := pos.x + 1, y := pos.y + 1 } tile scene.tiles
        scene.connect_borders = .ok bdr) :
    autotile_bitfield scene.tiles pos tile scene.connect_borders =
      .ok (neighbor_bitfield br bu bl bd (bu && br && bur) (bu && bl && bul)
        (bd && bl && bdl) (bd && br && bdr)) ∧
    (neighbor_bitfield br bu bl bd (bu && br && bur) (bu && bl && bul)
        (bd && bl && bdl) (bd && br && bdr)).testBit 3 = (bu && br && bur) ∧
    (neighbor_bitfield br bu bl bd (bu && br && bur) (bu && bl && bul)
        (bd && bl && bdl) (bd && br && bdr)).testBit 2 = (bu && bl && bul) ∧
    (neighbor_bitfield br bu bl bd (bu && br && bur) (bu && bl && bul)
        (bd && bl && bdl) (bd && br && bdr)).testBit 1 = (bd && bl && bdl) ∧
    (neighbor_bitfield br bu bl bd (bu && br && bur) (bu && bl && bul)
        (bd && bl && bdl) (bd && br && bdr)).testBit 0 = (bd && br && bdr) ∧
    (br = true → bu = true → bl = true → bd = true → bur = true → bul = true →
      bdl = true → bdr = true →
      autotile_bitfield scene.tiles pos tile scene.connect_borders =
        .ok 0b11111111) ∧
    (br = true → bu = true → bl = false → bd = false → bur = false →
      autotile_bitfield scene.tiles pos tile scene.connect_borders =
        .ok 0b11000000) ∧
    (∀ fb : Int,
      tv (neighbor_bitfield br bu bl bd (bu && br && bur) (bu && bl && bul)
        (bd && bl && bdl) (bd && br && bdr) &&& 0b11110000) = some fb →
      connect_tile_frame tv scene pos tile =
        .ok (some (some ((tv (neighbor_bitfield br bu bl bd (bu && br && bur)
          (bu && bl && bul) (bd && bl && bdl) (bd && br && bdr))).getD fb),
          fb))) := by
  have main : autotile_bitfield scene.tiles pos tile scene.connect_borders =
      .ok (neighbor_bitfield br bu bl bd (bu && br && bur) (bu && bl && bul)
        (bd && bl && bdl) (bd && br && bdr)) := by
    cases bu <;> cases br <;> cases bl <;> cases bd <;>
      simp_all only [autotile_bitfield, except_ok_bind, except_pure,
        Bool.true_and, Bool.false_and, Bool.and_true, Bool.and_false,
        Bool.and_self, Bool.false_eq_true, eq_self_iff_true,
        forall_true_left, false_implies, if_true, if_false]
  have hbits := neighbor_bitfield_testBits br bu bl bd (bu && br && bur)
    (bu && bl && bul) (bd && bl && bdl) (bd && br && bdr)
  refine ⟨main, hbits.2.2.2.2.1, hbits.2.2.2.2.2.1, hbits.2.2.2.2.2.2.1,
    hbits.2.2.2.2.2.2.2, ?_, ?_, ?_⟩
  · intro h1 h2 h3 h4 h5 h6 h7 h8
    subst h1; subst h2; subst h3; subst h4; subst h5; subst h6; subst h7; subst h8
    rw [main]
    decide
  · intro h1 h2 h3 h4 h5
    subst h1; subst h2; subst h3; subst h4; subst h5
    rw [main]
    simp only [Bool.true_and, Bool.false_and, Bool.and_true, Bool.and_false]
    decide
  · intro fb hfb
    unfold connect_tile_frame
    rw [if_neg (by simp [hfr, hd]), if_neg (by simp [hat]), main,
      except_ok_bind]
    simp only [hfb]

/-- Witness for C1 at the fully surrounded grid (bitfield 255) and the
right+up-only grid with an occupied non-joining diagonal (bitfield
192). -/
theorem c1_witness :
    autotile_bitfield scene_full.tiles (mkPos 1 1) tile_a
      scene_full.connect_borders = .ok 0b11111111 ∧
    autotile_bitfield scene_ru.tiles (mkPos 1 1) tile_a
      scene_ru.connect_borders = .ok 0b11000000 := by
  constructor
  · exact (c1_autotile_diagonal_gating (fun _ => some 0) scene_full (mkPos 1 1)
      tile_a true true true true true true true true rfl (by decide) rfl
      (by decide) (by decide) (by decide) (by decide)
      (fun _ _ => by decide) (fun _ _ => by decide) (fun _ _ => by decide)
      (fun _ _ => by decide)).2.2.2.2.2.1 rfl rfl rfl rfl rfl rfl rfl rfl
  · exact (c1_autotile_diagonal_gating (fun _ => some 0) scene_ru (mkPos 1 1)
      tile_a true true false false false false false false rfl (by decide) rfl
      (by decide) (by decide) (by decide) (by decide)
      (fun _ _ => by decide) (fun _ h => Bool.noConfusion h)
      (fun h _ => Bool.noConfusion h)
      (fun h _ => Bool.noConfusion h)).2.2.2.2.2.2.1 rfl rfl rfl rfl rfl

end Chilly
